import Mathlib

/-!
Shallow embedding of the OAuth session code of tianyicaii/craw.

Sources embedded here:
* `src/api/GitHubAPI.ts` (in the repository snapshot: `src/unnamed/part_003`):
  `GitHubUser`, `GitHubEmail`, `getPrimaryEmail`, `getCompleteUserProfile`.
* `src/oauth/UserSessionManager.ts`, first (keytar-backed) variant:
  session data model, `saveSession`, `loadSession`, `validateSession`,
  `performPeriodicValidation`, `performAutoRefresh`, `handleSessionError`,
  `updateSessionData`, `clearSession`, `refreshUserInfo`, `manualRefresh`,
  `startAutoMaintenance`, `stopAutoMaintenance`.
* `src/oauth/UserSessionManager.ts`, second (file-store) variant, embedded in
  namespace `FileStore`.
* `src/oauth/OAuthManager.ts`: `handleCallback` and the teardown ordering of
  each exit path of `login()` / `cancelAuth()`, as action traces.

Modelling conventions:
* Network calls and their outcomes are oracles passed as parameters
  (`Bool` for pure liveness probes, `Except Unit α` for calls whose result
  is consumed).
* The store (keytar / file storage) is a record of the two slots the code
  uses (`TOKEN_KEY`, `USER_KEY`).  JSON round-tripping of the metadata
  record written by `saveSession` is the identity on the structured value
  (`undefined` fields dropped by `JSON.stringify` are `Option.none`), so the
  metadata slot holds the structured `SessionData` value directly.
* Store-operation failures (a keytar call throwing) are injected through a
  `StoreFaults` record.
* JavaScript truthiness on strings and numbers (`!x`, `x || y`) is modelled
  explicitly: `none` and `some ""` (resp. `some 0`) are falsy.
* Timestamps are `Nat` (milliseconds since epoch, as `Date.now()`).
-/

/-- JS `x || y` for `x : number | undefined` (`0` and `undefined` are falsy).
Used for `sessionData.lastValidatedAt || sessionData.createdAt`. -/
def jsOrNat : Option Nat → Nat → Nat
  | none, b => b
  | some 0, b => b
  | some (n + 1), _ => n + 1

/-- JS truthiness test `!x` for `x : string | null | undefined`:
`null`/`undefined` and the empty string are falsy. -/
def jsFalsyStr : Option String → Bool
  | none => true
  | some s => s == ""

/-- JS `x || undefined` for `x : string | null` (used for
`primaryEmail: primaryEmail || undefined` in `getCompleteUserProfile`). -/
def jsOrUndef : Option String → Option String
  | none => none
  | some s => if s == "" then none else some s

/-! ### `src/api/GitHubAPI.ts`: data types -/

/-- `GitHubUser` (GitHubAPI.ts lines 13-24). `name`, `email`, `bio` are
nullable strings. -/
structure GitHubUser where
  id : Nat
  login : String
  name : Option String
  email : Option String
  avatar_url : String
  bio : Option String
  public_repos : Nat
  followers : Nat
  following : Nat
  created_at : String
deriving DecidableEq, Repr

/-- `GitHubUser & { primaryEmail?: string }` — the enriched profile returned
by `getCompleteUserProfile` and stored in a session's `user` field. -/
structure UserProfile extends GitHubUser where
  primaryEmail : Option String
deriving DecidableEq, Repr

/-- `GitHubEmail` (GitHubAPI.ts lines 26-31). -/
structure GitHubEmail where
  email : String
  primary : Bool
  verified : Bool
  visibility : Option String
deriving DecidableEq, Repr

/-! ### `src/api/GitHubAPI.ts`: email enrichment

`getUserInfo` / `getUserEmails` are network calls; their outcomes are
oracle parameters (`Except Unit _`, `.error` = the underlying fetch threw
or returned non-2xx). -/

/-- `GitHubAPI.getPrimaryEmail` (lines 172-181): picks the entry with
`primary && verified` from `getUserEmails`; any failure of the underlying
call is caught and degrades to `null`. -/
def getPrimaryEmail (emailsResult : Except Unit (List GitHubEmail)) : Option String :=
  match emailsResult with
  | .error _ => none
  | .ok emails =>
    match emails.find? (fun e => e.primary && e.verified) with
    | some e => some e.email
    | none => none

/-- `GitHubAPI.getCompleteUserProfile` (lines 186-199): `getUserInfo`
failures propagate; if the profile's `email` is falsy, `getPrimaryEmail`
is attempted and merged as `primaryEmail: primaryEmail || undefined`;
otherwise the plain profile is returned (no `primaryEmail` key). -/
def getCompleteUserProfile (userResult : Except Unit GitHubUser)
    (emailsResult : Except Unit (List GitHubEmail)) : Except Unit UserProfile :=
  match userResult with
  | .error e => .error e
  | .ok u =>
    if jsFalsyStr u.email then
      .ok { toGitHubUser := u, primaryEmail := jsOrUndef (getPrimaryEmail emailsResult) }
    else
      .ok { toGitHubUser := u, primaryEmail := none }

/-! ### `src/oauth/UserSessionManager.ts`, keytar variant: data model -/

/-- The `token` field of `UserSession` (UserSessionManager.ts lines 15-19). -/
structure SessionToken where
  access_token : String
  token_type : String
  scope : String
deriving DecidableEq, Repr

/-- `UserSession` (UserSessionManager.ts lines 13-23). -/
structure UserSession where
  user : UserProfile
  token : SessionToken
  createdAt : Nat
  lastValidatedAt : Nat
  expiresAt : Option Nat
deriving DecidableEq, Repr

/-- The metadata document `saveSession` / `updateSessionData` serialize to
the `USER_KEY` slot (lines 63-72 and 320-329): the user snapshot, the
token *sans* `access_token`, and the timestamps. -/
structure SessionData where
  user : UserProfile
  token_type : String
  scope : String
  createdAt : Nat
  lastValidatedAt : Option Nat
  expiresAt : Option Nat
deriving DecidableEq, Repr

/-- The two store slots owned by the session manager: `TOKEN_KEY`
(`github_access_token`, secret-bearing) and `USER_KEY`
(`github_user_data`, plaintext-readable metadata). -/
structure Store where
  tokenSlot : Option String
  userSlot : Option SessionData
deriving DecidableEq, Repr

/-- Session lifecycle events (`SessionEvents`, lines 25-30). -/
inductive SessionEvent where
  | onSessionExpired
  | onSessionRefreshed
  | onSessionError
  | onAutoLogout
deriving DecidableEq, Repr

/-- In-memory state of the keytar-variant `UserSessionManager`
(fields of the class, lines 33-39), together with the store it owns.
The two interval timers are modelled by whether they are armed. -/
structure ManagerState where
  currentSession : Option UserSession
  retryCount : Nat
  isRefreshing : Bool
  validationTimerOn : Bool
  refreshTimerOn : Bool
  store : Store
deriving DecidableEq, Repr

/-- Fault injection for the four keytar calls the manager makes
(`setPassword` / `deletePassword` on each key); `true` = the call throws. -/
structure StoreFaults where
  tokenSetFails : Bool
  userSetFails : Bool
  tokenDeleteFails : Bool
  userDeleteFails : Bool
deriving DecidableEq, Repr

/-- No store faults. -/
def noFaults : StoreFaults :=
  { tokenSetFails := false, userSetFails := false
    tokenDeleteFails := false, userDeleteFails := false }

/-- `MAX_RETRY_ATTEMPTS` (line 11). -/
def MAX_RETRY_ATTEMPTS : Nat := 3

/-- `TOKEN_VALIDATION_INTERVAL` (line 10): 1 hour in ms. -/
def TOKEN_VALIDATION_INTERVAL : Nat := 60 * 60 * 1000

/-- `AUTO_REFRESH_INTERVAL` (line 9): 30 minutes in ms. -/
def AUTO_REFRESH_INTERVAL : Nat := 30 * 60 * 1000

/-! ### Keytar variant: operations -/

/-- `stopAutoMaintenance` (lines 220-232): clear and null both timers. -/
def stopAutoMaintenance (st : ManagerState) : ManagerState :=
  { st with validationTimerOn := false, refreshTimerOn := false }

/-- `startAutoMaintenance` (lines 198-215): stop any existing timers, then
arm both. -/
def startAutoMaintenance (st : ManagerState) : ManagerState :=
  let st := stopAutoMaintenance st
  { st with validationTimerOn := true, refreshTimerOn := true }

/-- The metadata record built by `saveSession` (lines 63-72): everything
except `token.access_token`. -/
def sessionDataOf (s : UserSession) : SessionData :=
  { user := s.user
    token_type := s.token.token_type
    scope := s.token.scope
    createdAt := s.createdAt
    lastValidatedAt := some s.lastValidatedAt
    expiresAt := s.expiresAt }

/-- `saveSession` (lines 55-86): write the raw token to `TOKEN_KEY`, the
metadata to `USER_KEY`, then commit `currentSession` and restart
maintenance.  A throwing store write jumps to the catch block, which
rethrows (`保存用户会话失败`): the returned `Bool` is `true` iff the error
propagated to the caller. -/
def saveSession (st : ManagerState) (s : UserSession) (f : StoreFaults) :
    ManagerState × Bool :=
  if f.tokenSetFails then
    (st, true)
  else
    let st1 := { st with store := { st.store with tokenSlot := some s.token.access_token } }
    if f.userSetFails then
      (st1, true)
    else
      let st2 := { st1 with
        store := { st1.store with userSlot := some (sessionDataOf s) }
        currentSession := some s }
      (startAutoMaintenance st2, false)

/-- `clearSession` (lines 340-361): stop maintenance, delete `TOKEN_KEY`
then `USER_KEY` (sequentially, inside one try block: the first throwing
delete jumps to the catch, skipping the second delete), then null the
session and reset `retryCount`.  The catch block also nulls the session
and resets `retryCount`; no error ever propagates to the caller. -/
def clearSession (st : ManagerState) (f : StoreFaults) : ManagerState :=
  let st0 := stopAutoMaintenance st
  if f.tokenDeleteFails then
    { st0 with currentSession := none, retryCount := 0 }
  else
    let st1 := { st0 with store := { st0.store with tokenSlot := none } }
    if f.userDeleteFails then
      { st1 with currentSession := none, retryCount := 0 }
    else
      let st2 := { st1 with store := { st1.store with userSlot := none } }
      { st2 with currentSession := none, retryCount := 0 }

/-- `updateSessionData` (lines 318-335): rewrite the `USER_KEY` metadata
for the given session; a throwing write is caught and ignored. -/
def updateSessionData (st : ManagerState) (s : UserSession) (f : StoreFaults) :
    ManagerState :=
  if f.userSetFails then st
  else { st with store := { st.store with userSlot := some (sessionDataOf s) } }

/-- `validateSession()` with no argument (lines 149-193), so the target is
`currentSession`.  `apiOk` is the outcome of the `getUserInfo` liveness
probe, `now` is `Date.now()` at the success branch.  Returns the new
state, the boolean result, and the events fired.  Store operations inside
(`updateSessionData`, and `clearSession` on eviction) are taken
fault-free here. -/
def validateSession (st : ManagerState) (apiOk : Bool) (now : Nat) :
    ManagerState × Bool × List SessionEvent :=
  match st.currentSession with
  | none => (st, false, [])
  | some s =>
    if apiOk then
      let s' := { s with lastValidatedAt := now }
      let st1 := { st with currentSession := some s' }
      let st2 := updateSessionData st1 s' noFaults
      ({ st2 with retryCount := 0 }, true, [])
    else
      let st1 := { st with retryCount := st.retryCount + 1 }
      if MAX_RETRY_ATTEMPTS ≤ st1.retryCount then
        (clearSession st1 noFaults, false, [SessionEvent.onSessionExpired])
      else
        (st1, false, [])

/-- `performPeriodicValidation` (lines 237-262): one validation-timer tick.
Runs a live validation only when the time since `lastValidatedAt` exceeds
`TOKEN_VALIDATION_INTERVAL`; fires `onAutoLogout` when the validation
failed and `retryCount` (after the call) still reaches the maximum. -/
def performPeriodicValidation (st : ManagerState) (apiOk : Bool) (now : Nat) :
    ManagerState × List SessionEvent :=
  match st.currentSession with
  | none => (st, [])
  | some s =>
    if TOKEN_VALIDATION_INTERVAL < now - s.lastValidatedAt then
      let r := validateSession st apiOk now
      if !r.2.1 && decide (MAX_RETRY_ATTEMPTS ≤ r.1.retryCount) then
        (r.1, r.2.2 ++ [SessionEvent.onAutoLogout])
      else
        (r.1, r.2.2)
    else
      (st, [])

/-- `refreshUserInfo` (keytar variant, lines 394-423): fetch the complete
profile with the current token; on success build the updated session,
persist it via `saveSession` (fault-free here), and return it; a profile
fetch failure is rethrown (`.error`). -/
def refreshUserInfo (st : ManagerState) (profileResult : Except Unit UserProfile)
    (now : Nat) : Except Unit (ManagerState × Option UserSession) :=
  match st.currentSession with
  | none => .ok (st, none)
  | some s =>
    match profileResult with
    | .ok p =>
      let updated : UserSession := { s with user := p, lastValidatedAt := now }
      let r := saveSession st updated noFaults
      .ok (r.1, some updated)
    | .error _ => .error ()

/-- `manualRefresh` (lines 428-435): if a refresh is in progress, return
the current (stale) session without any network call (`.ok`); otherwise
delegate to `refreshUserInfo`. -/
def manualRefresh (st : ManagerState) (profileResult : Except Unit UserProfile)
    (now : Nat) : Except Unit (ManagerState × Option UserSession) :=
  if st.isRefreshing then
    .ok (st, st.currentSession)
  else
    refreshUserInfo st profileResult now

/-- `handleSessionError` (lines 296-313): bump `retryCount`; at the
maximum, clear the session and fire `onAutoLogout`; otherwise fire
`onSessionError`. -/
def handleSessionError (st : ManagerState) : ManagerState × List SessionEvent :=
  let st1 := { st with retryCount := st.retryCount + 1 }
  if MAX_RETRY_ATTEMPTS ≤ st1.retryCount then
    (clearSession st1 noFaults, [SessionEvent.onAutoLogout])
  else
    (st1, [SessionEvent.onSessionError])

/-- `performAutoRefresh` (lines 267-291): one refresh-timer tick.  Bails
out when no session exists or a refresh is already in flight; otherwise
sets `isRefreshing`, runs `refreshUserInfo`, routes a thrown error through
`handleSessionError`, and clears `isRefreshing` in the `finally` block. -/
def performAutoRefresh (st : ManagerState) (profileResult : Except Unit UserProfile)
    (now : Nat) : ManagerState × List SessionEvent :=
  if st.currentSession = none ∨ st.isRefreshing then
    (st, [])
  else
    let st1 := { st with isRefreshing := true }
    match refreshUserInfo st1 profileResult now with
    | .ok (st2, r) =>
      let evs := match r with
        | some _ => [SessionEvent.onSessionRefreshed]
        | none => []
      ({ st2 with isRefreshing := false }, evs)
    | .error _ =>
      let r := handleSessionError st1
      ({ r.1 with isRefreshing := false }, r.2)

/-- `loadSession` (lines 91-144): read `TOKEN_KEY`; a missing (or falsy,
i.e. empty-string) token yields `null`.  Read `USER_KEY`; if missing,
delete the orphaned token and yield `null`.  Otherwise reconstruct the
session (with `lastValidatedAt || createdAt`), commit it, reset
`retryCount`, and start maintenance. -/
def loadSession (st : ManagerState) : ManagerState × Option UserSession :=
  match st.store.tokenSlot with
  | none => (st, none)
  | some accessToken =>
    if accessToken == "" then
      (st, none)
    else
      match st.store.userSlot with
      | none =>
        ({ st with store := { st.store with tokenSlot := none } }, none)
      | some sd =>
        let session : UserSession := {
          user := sd.user
          token := { access_token := accessToken
                     token_type := sd.token_type
                     scope := sd.scope }
          createdAt := sd.createdAt
          lastValidatedAt := jsOrNat sd.lastValidatedAt sd.createdAt
          expiresAt := sd.expiresAt }
        let st1 := { st with currentSession := some session, retryCount := 0 }
        (startAutoMaintenance st1, some session)

/-- A freshly constructed manager (all class-field initializers, lines
33-39) over a given store: no session, no retries, no timers. -/
def freshManager (store : Store) : ManagerState :=
  { currentSession := none
    retryCount := 0
    isRefreshing := false
    validationTimerOn := false
    refreshTimerOn := false
    store := store }

/-! ### `src/oauth/UserSessionManager.ts`, file-store variant

The second variant of `UserSessionManager` in the same file (after the
document separator): it persists through `setStorageItem` /
`getStorageItem` / `deleteStorageItem` over files, has no `retryCount`,
no `isRefreshing` flag and no `onSessionError` / `onAutoLogout`
callbacks, and its `UserSession` has no `expiresAt`. -/

namespace FileStore

/-- `UserSession` of the file-store variant (lines 538-547 of the
concatenated file): no `expiresAt`. -/
structure UserSession where
  user : UserProfile
  token : SessionToken
  createdAt : Nat
  lastValidatedAt : Nat
deriving DecidableEq, Repr

/-- The metadata document written to `USER_KEY` by the file-store
`saveSession` (lines 583-591): no `expiresAt`. -/
structure SessionData where
  user : UserProfile
  token_type : String
  scope : String
  createdAt : Nat
  lastValidatedAt : Option Nat
deriving DecidableEq, Repr

/-- The two file-backed slots (`github_access_token.json`,
`github_user_data.json`). -/
structure Store where
  tokenSlot : Option String
  userSlot : Option SessionData
deriving DecidableEq, Repr

/-- In-memory state of the file-store `UserSessionManager` (lines
554-559): no `retryCount`, no `isRefreshing`. -/
structure ManagerState where
  currentSession : Option UserSession
  validationTimerOn : Bool
  refreshTimerOn : Bool
  store : Store
deriving DecidableEq, Repr

/-- Fault injection for the file store.  `deleteStorageItem` (lines
523-532) swallows its own errors, so a failing delete merely leaves the
file in place and never throws. -/
structure StoreFaults where
  tokenDeleteFails : Bool
  userDeleteFails : Bool
deriving DecidableEq, Repr

/-- `stopAutoMaintenance` (lines 763-775). -/
def stopAutoMaintenance (st : ManagerState) : ManagerState :=
  { st with validationTimerOn := false, refreshTimerOn := false }

/-- `startAutoMaintenance` (lines 723-758). -/
def startAutoMaintenance (st : ManagerState) : ManagerState :=
  let st := stopAutoMaintenance st
  { st with validationTimerOn := true, refreshTimerOn := true }

/-- The metadata record built by the file-store `saveSession` (lines
583-591): everything except `token.access_token`. -/
def sessionDataOf (s : UserSession) : SessionData :=
  { user := s.user
    token_type := s.token.token_type
    scope := s.token.scope
    createdAt := s.createdAt
    lastValidatedAt := some s.lastValidatedAt }

/-- `saveSession` (file-store, lines 575-605; fault-free store writes):
token to `TOKEN_KEY`, metadata to `USER_KEY`, commit `currentSession`,
restart maintenance. -/
def saveSession (st : ManagerState) (s : UserSession) : ManagerState :=
  let st1 := { st with store := { tokenSlot := some s.token.access_token
                                  userSlot := some (sessionDataOf s) }
                       currentSession := some s }
  startAutoMaintenance st1

/-- `clearSession` (file-store, lines 803-818): stop maintenance, delete
both keys — `deleteStorageItem` never throws, so both deletions are
always attempted and a failing unlink just leaves that file — then null
the session.  No error propagates. -/
def clearSession (st : ManagerState) (f : StoreFaults) : ManagerState :=
  let st0 := stopAutoMaintenance st
  let st1 := { st0 with store := {
    tokenSlot := if f.tokenDeleteFails then st0.store.tokenSlot else none
    userSlot := if f.userDeleteFails then st0.store.userSlot else none } }
  { st1 with currentSession := none }

/-- No file-store faults. -/
def noFaults : StoreFaults := { tokenDeleteFails := false, userDeleteFails := false }

/-- `refreshUserInfo` (file-store, lines 682-718): on a successful
profile fetch, persist the updated session and fire
`onSessionRefreshed`; on ANY failure, immediately `clearSession` and
fire `onSessionExpired`, returning `null` (no retry counting). -/
def refreshUserInfo (st : ManagerState) (profileResult : Except Unit UserProfile)
    (now : Nat) : ManagerState × Option UserSession × List SessionEvent :=
  match st.currentSession with
  | none => (st, none, [])
  | some s =>
    match profileResult with
    | .ok p =>
      let updated : UserSession := { s with user := p, lastValidatedAt := now }
      let st' := saveSession st updated
      (st', some updated, [SessionEvent.onSessionRefreshed])
    | .error _ =>
      (clearSession st noFaults, none, [SessionEvent.onSessionExpired])

end FileStore

/-! ### `src/oauth/OAuthManager.ts`: callback handling and listener teardown

Each exit path of one authorization attempt is modelled as the sequence
of externally visible actions it performs, in program order: pages sent
to the browser, `stopCallbackServer()` (`closeListener`), and the
settlement of the attempt's promise (`settleResolve` / `settleReject`). -/

/-- Observable actions of one authorization attempt. -/
inductive ListenerAction where
  | sendSuccessPage
  | sendErrorPage
  | closeListener
  | settleResolve
  | settleReject
deriving DecidableEq, Repr

/-- Outcome of `handleCallback` for the attempt's promise. -/
inductive CallbackOutcome where
  | providerError (error : String) (description : Option String)
  | stateMismatch
  | missingCode
  | success (code : String) (cbState : String)
deriving DecidableEq, Repr

/-- Is this action a settlement of the attempt's promise? -/
def isSettle : ListenerAction → Bool
  | .settleResolve => true
  | .settleReject => true
  | _ => false

/-- Helper: scan a trace, remembering whether a `closeListener` has
already happened, and check every settlement is preceded by one. -/
def closedBeforeSettledAux : Bool → List ListenerAction → Bool
  | _, [] => true
  | closed, a :: rest =>
    if isSettle a then closed && closedBeforeSettledAux closed rest
    else closedBeforeSettledAux (closed || a == ListenerAction.closeListener) rest

/-- The listener is closed before the attempt's promise settles: every
settlement in the trace is strictly preceded by a `closeListener`. -/
def closedBeforeSettled (tr : List ListenerAction) : Bool :=
  closedBeforeSettledAux false tr

/-- `handleCallback` (OAuthManager.ts lines 103-165), given the parsed
query parameters `code`, `state`, `error`, `error_description` and the
`expectedState` generated for this attempt.  Branch order as in the
source: provider `error` first, then `state !== expectedState`, then a
falsy `code`, else success.  Each branch sends its page, stops the
callback server, and only then settles the promise. -/
def handleCallback (code stateParam errorParam errorDescription : Option String)
    (expectedState : String) : CallbackOutcome × List ListenerAction :=
  match errorParam with
  | some e =>
    (.providerError e errorDescription,
     [.sendErrorPage, .closeListener, .settleReject])
  | none =>
    if stateParam ≠ some expectedState then
      (.stateMismatch, [.sendErrorPage, .closeListener, .settleReject])
    else if jsFalsyStr code then
      (.missingCode, [.sendErrorPage, .closeListener, .settleReject])
    else
      match code with
      | some c =>
        (.success c expectedState,
         [.sendSuccessPage, .closeListener, .settleResolve])
      | none =>
        -- unreachable: `jsFalsyStr none = true`
        (.missingCode, [.sendErrorPage, .closeListener, .settleReject])

/-- The 5-minute timeout path (lines 93-96): `stopCallbackServer()` then
`reject(new Error('授权超时'))`. -/
def timeoutTrace : List ListenerAction :=
  [ListenerAction.closeListener, ListenerAction.settleReject]

/-- `cancelAuth` (lines 363-369) with an attempt pending and the server
live: `this.authPromise.reject(...)` first, `stopCallbackServer()`
afterwards. -/
def cancelAuthTrace : List ListenerAction :=
  [ListenerAction.settleReject, ListenerAction.closeListener]

/-- The superseded attempt's trace when a new `login()` starts while one
is pending (lines 327-330): the pending promise is rejected with
`新的授权请求已开始` and nothing closes its listener — `stopCallbackServer`
is not called there, and the new attempt's `startCallbackServer`
overwrites `this.server` (line 65) without closing the old one. -/
def loginSupersededTrace : List ListenerAction :=
  [ListenerAction.settleReject]

/-- The `oauth:login` IPC pipeline of the main process
(`src/main/main.ts` lines 160-233): `createSession` / `saveSession` run
only when `oauthManager.login()` resolved with `success && code`; every
rejected callback outcome is caught and returns `{success: false}` with
no session created. -/
def ipcLoginCreatesSession : CallbackOutcome → Bool
  | .success _ _ => true
  | _ => false

/-! ### Refresh concurrency model

The event loop interleaves tasks only at `await` suspension points, so a
refresh invocation splits into atomic segments.  `performAutoRefresh`
runs guard + `isRefreshing := true` + dispatch of the profile fetch
synchronously (lines 268-277), suspends on the fetch, then runs the rest
plus the `finally` synchronously (lines 278-290).  `manualRefresh` runs
its guard (line 429) and — via `refreshUserInfo` (line 402) — the fetch
dispatch synchronously, suspends, then continues; it never touches
`isRefreshing`. -/

/-- Atomic (between-`await`) segments of the two refresh entry points. -/
inductive RefreshSegment where
  | autoEnter
  | autoExit
  | manualEnter
  | manualExit
deriving DecidableEq, Repr

/-- Global view for counting concurrently in-flight profile-fetch
network calls (a session is assumed present throughout). -/
structure ConcState where
  isRefreshing : Bool
  inFlight : Nat
  maxInFlight : Nat
deriving DecidableEq, Repr

/-- Execute one atomic segment of a task.  A guard that bails out ends
the task (empty remainder). -/
def execSegment (cs : ConcState) : RefreshSegment → List RefreshSegment →
    ConcState × List RefreshSegment
  | .autoEnter, rest =>
    if cs.isRefreshing then (cs, [])
    else
      let n := cs.inFlight + 1
      ({ isRefreshing := true, inFlight := n, maxInFlight := max cs.maxInFlight n }, rest)
  | .autoExit, rest =>
    ({ cs with inFlight := cs.inFlight - 1, isRefreshing := false }, rest)
  | .manualEnter, rest =>
    if cs.isRefreshing then (cs, [])
    else
      let n := cs.inFlight + 1
      ({ cs with inFlight := n, maxInFlight := max cs.maxInFlight n }, rest)
  | .manualExit, rest =>
    ({ cs with inFlight := cs.inFlight - 1 }, rest)

/-- One `performAutoRefresh` tick as segments. -/
def autoRefreshTask : List RefreshSegment :=
  [RefreshSegment.autoEnter, RefreshSegment.autoExit]

/-- One `manualRefresh` invocation as segments. -/
def manualRefreshTask : List RefreshSegment :=
  [RefreshSegment.manualEnter, RefreshSegment.manualExit]

/-- Run two concurrent tasks under a schedule (`true` = step task 1). -/
def runSched (cs : ConcState) (t1 t2 : List RefreshSegment) :
    List Bool → ConcState
  | [] => cs
  | b :: bs =>
    if b then
      match t1 with
      | [] => runSched cs t1 t2 bs
      | seg :: rest =>
        let r := execSegment cs seg rest
        runSched r.1 r.2 t2 bs
    else
      match t2 with
      | [] => runSched cs t1 t2 bs
      | seg :: rest =>
        let r := execSegment cs seg rest
        runSched r.1 t1 r.2 bs

/-! ### Sample concrete data (for witnesses and counterexamples) -/

/-- A concrete GitHub profile (no public email). -/
def sampleUser : GitHubUser :=
  { id := 1
    login := "octocat"
    name := some "Octo Cat"
    email := none
    avatar_url := "https://avatars.example/u/1"
    bio := none
    public_repos := 8
    followers := 3
    following := 2
    created_at := "2011-01-25T18:44:36Z" }

/-- The sample profile enriched with a primary email. -/
def sampleProfile : UserProfile :=
  { toGitHubUser := sampleUser, primaryEmail := some "octo@example.com" }

/-- A concrete token. -/
def sampleToken : SessionToken :=
  { access_token := "tok_1", token_type := "bearer", scope := "user:email read:user" }

/-- A concrete session (keytar variant). -/
def sampleSession : UserSession :=
  { user := sampleProfile
    token := sampleToken
    createdAt := 100
    lastValidatedAt := 100
    expiresAt := none }

/-- A concrete session (file-store variant). -/
def sampleSessionFS : FileStore.UserSession :=
  { user := sampleProfile
    token := sampleToken
    createdAt := 100
    lastValidatedAt := 100 }

/-- A keytar-variant manager holding `sampleSession`, with both slots
persisted, timers armed, no retries, no refresh in flight. -/
def sampleManager : ManagerState :=
  { currentSession := some sampleSession
    retryCount := 0
    isRefreshing := false
    validationTimerOn := true
    refreshTimerOn := true
    store := { tokenSlot := some "tok_1", userSlot := some (sessionDataOf sampleSession) } }

/-- A file-store-variant manager holding `sampleSessionFS`. -/
def sampleManagerFS : FileStore.ManagerState :=
  { currentSession := some sampleSessionFS
    validationTimerOn := true
    refreshTimerOn := true
    store := { tokenSlot := some "tok_1"
               userSlot := some (FileStore.sessionDataOf sampleSessionFS) } }

/-! ### Claim C9 -/

/-- Claim C9: `getCompleteUserProfile` fails exactly when `getUserInfo`
fails; when `getUserInfo` succeeds with an empty/absent email,
`getPrimaryEmail` is attempted and its result merged, and a failure of the
underlying email-list call degrades to an absent `primaryEmail` instead of
propagating — the complete-profile call never fails solely due to a
missing email. -/
theorem C9_email_failure_never_fails_profile
    (u : Except Unit GitHubUser) (e : Except Unit (List GitHubEmail)) :
    ((∃ p, getCompleteUserProfile u e = .ok p) ↔ (∃ usr, u = .ok usr)) ∧
    (∀ usr, u = .ok usr → jsFalsyStr usr.email = true →
      getCompleteUserProfile u e =
        .ok { toGitHubUser := usr, primaryEmail := jsOrUndef (getPrimaryEmail e) }) ∧
    (∀ usr, u = .ok usr → jsFalsyStr usr.email = true → e = .error () →
      getCompleteUserProfile u e = .ok { toGitHubUser := usr, primaryEmail := none }) := by
  refine ⟨?_, ?_, ?_⟩
  · constructor
    · rintro ⟨p, hp⟩
      cases u with
      | error err => simp [getCompleteUserProfile] at hp
      | ok usr => exact ⟨usr, rfl⟩
    · rintro ⟨usr, rfl⟩
      by_cases h : jsFalsyStr usr.email = true
      · exact ⟨{ toGitHubUser := usr, primaryEmail := jsOrUndef (getPrimaryEmail e) },
          by simp [getCompleteUserProfile, h]⟩
      · exact ⟨{ toGitHubUser := usr, primaryEmail := none },
          by simp [getCompleteUserProfile, h]⟩
  · rintro usr rfl h
    simp [getCompleteUserProfile, h]
  · rintro usr rfl h rfl
    simp [getCompleteUserProfile, h, getPrimaryEmail, jsOrUndef]

/-- Witness for C9 at concrete inputs: a profile with no email and a
failing email-list call still yields a successful complete profile with
no `primaryEmail`. -/
theorem C9_witness :
    getCompleteUserProfile (.ok sampleUser) (.error ()) =
      .ok { toGitHubUser := sampleUser, primaryEmail := none } :=
  (C9_email_failure_never_fails_profile (.ok sampleUser) (.error ())).2.2
    sampleUser rfl (by decide) rfl

/-! ### Claim C2 -/

/-- Claim C2: the callback handler resolves with an authorization code
only when the callback's `state` parameter exactly equals the state
generated for this attempt; when no provider error is present and the
state differs, the outcome is a state-mismatch rejection and the IPC
login pipeline creates no session. -/
theorem C2_state_param_integrity
    (code stateParam errorParam errorDescription : Option String)
    (expectedState : String) :
    (∀ c s', (handleCallback code stateParam errorParam errorDescription
        expectedState).1 = .success c s' → stateParam = some expectedState) ∧
    (errorParam = none → stateParam ≠ some expectedState →
      (handleCallback code stateParam errorParam errorDescription
        expectedState).1 = .stateMismatch ∧
      ipcLoginCreatesSession (handleCallback code stateParam errorParam
        errorDescription expectedState).1 = false) := by
  constructor
  · intro c s' h
    cases errorParam with
    | some e => simp [handleCallback] at h
    | none =>
      by_cases hst : stateParam = some expectedState
      · exact hst
      · exfalso
        by_cases hc : jsFalsyStr code = true
        · simp [handleCallback, hst, hc] at h
        · cases code with
          | none => simp [jsFalsyStr] at hc
          | some c0 => simp [handleCallback, hst, hc] at h
  · rintro rfl hst
    by_cases hc : jsFalsyStr code = true
    · constructor <;> simp [handleCallback, hst, hc, ipcLoginCreatesSession]
    · cases code with
      | none => simp [jsFalsyStr] at hc
      | some c0 =>
        constructor <;> simp [handleCallback, hst, hc, ipcLoginCreatesSession]

/-- Witness for C2 at concrete inputs: a callback carrying a valid code
but a wrong state is rejected as a state mismatch and creates no
session. -/
theorem C2_witness :
    (handleCallback (some "abc123") (some "evil") none none "good").1 =
      .stateMismatch ∧
    ipcLoginCreatesSession
      (handleCallback (some "abc123") (some "evil") none none "good").1 = false :=
  (C2_state_param_integrity (some "abc123") (some "evil") none none "good").2
    rfl (by decide)

/-! ### Claim C8 -/

/-- Claim C8: the raw access token is never contained in the metadata
written to the plaintext-readable `USER_KEY` slot.  Formalised as
non-interference: the metadata record built by each of the three
metadata-writing operations (keytar `saveSession`, keytar
`updateSessionData`, file-store `saveSession`) is invariant under any
change of the access token, while the secret-bearing `TOKEN_KEY` slot is
the only slot whose written value depends on (and equals) the access
token. -/
theorem C8_token_secrecy (st : ManagerState) (s : UserSession) (t : String)
    (fs : FileStore.ManagerState) (s2 : FileStore.UserSession) :
    sessionDataOf { s with token := { s.token with access_token := t } } =
      sessionDataOf s ∧
    FileStore.sessionDataOf { s2 with token := { s2.token with access_token := t } } =
      FileStore.sessionDataOf s2 ∧
    (saveSession st s noFaults).1.store.userSlot = some (sessionDataOf s) ∧
    (saveSession st s noFaults).1.store.tokenSlot = some s.token.access_token ∧
    (updateSessionData st s noFaults).store.userSlot = some (sessionDataOf s) ∧
    (updateSessionData st s noFaults).store.tokenSlot = st.store.tokenSlot ∧
    (FileStore.saveSession fs s2).store.userSlot =
      some (FileStore.sessionDataOf s2) ∧
    (FileStore.saveSession fs s2).store.tokenSlot = some s2.token.access_token := by
  refine ⟨rfl, rfl, ?_, ?_, ?_, ?_, rfl, rfl⟩ <;>
    simp [saveSession, updateSessionData, startAutoMaintenance,
      stopAutoMaintenance, noFaults]

/-! ### Claim C10 -/

/-- Claim C10: if either store write inside the keytar `saveSession`
throws, the error propagates to the caller and the manager's in-memory
state is untouched: `currentSession` keeps its prior value and the
maintenance timers are not restarted, because commit and timer restart
happen only after both writes succeed. -/
theorem C10_saveSession_atomic_on_store_failure
    (st : ManagerState) (s : UserSession) (f : StoreFaults)
    (h : f.tokenSetFails = true ∨ f.userSetFails = true) :
    (saveSession st s f).2 = true ∧
    (saveSession st s f).1.currentSession = st.currentSession ∧
    (saveSession st s f).1.validationTimerOn = st.validationTimerOn ∧
    (saveSession st s f).1.refreshTimerOn = st.refreshTimerOn ∧
    (saveSession st s f).1.retryCount = st.retryCount ∧
    (saveSession st s f).1.isRefreshing = st.isRefreshing := by
  rcases h with h | h
  · simp [saveSession, h]
  · by_cases ht : f.tokenSetFails = true
    · simp [saveSession, ht]
    · simp at ht
      simp [saveSession, ht, h]

/-- Witness for C10: a failing metadata write makes `saveSession` raise
while `sampleManager` keeps its session and timer state. -/
theorem C10_witness :
    (saveSession sampleManager sampleSession
      { tokenSetFails := false, userSetFails := true
        tokenDeleteFails := false, userDeleteFails := false }).2 = true ∧
    (saveSession sampleManager sampleSession
      { tokenSetFails := false, userSetFails := true
        tokenDeleteFails := false, userDeleteFails := false }).1.currentSession =
      sampleManager.currentSession ∧
    (saveSession sampleManager sampleSession
      { tokenSetFails := false, userSetFails := true
        tokenDeleteFails := false, userDeleteFails := false }).1.validationTimerOn =
      sampleManager.validationTimerOn ∧
    (saveSession sampleManager sampleSession
      { tokenSetFails := false, userSetFails := true
        tokenDeleteFails := false, userDeleteFails := false }).1.refreshTimerOn =
      sampleManager.refreshTimerOn ∧
    (saveSession sampleManager sampleSession
      { tokenSetFails := false, userSetFails := true
        tokenDeleteFails := false, userDeleteFails := false }).1.retryCount =
      sampleManager.retryCount ∧
    (saveSession sampleManager sampleSession
      { tokenSetFails := false, userSetFails := true
        tokenDeleteFails := false, userDeleteFails := false }).1.isRefreshing =
      sampleManager.isRefreshing :=
  C10_saveSession_atomic_on_store_failure sampleManager sampleSession
    { tokenSetFails := false, userSetFails := true
      tokenDeleteFails := false, userDeleteFails := false } (Or.inr rfl)

/-! ### Claim C5 -/

/-- Counterexample to claim C5: in the keytar variant the two deletions
are NOT attempted independently.  With both slots populated and only the
token-key delete failing, the metadata-key delete (which would succeed)
is never attempted — the first throw jumps to the catch block — so the
metadata slot survives `clearSession`. -/
theorem C5_counterexample :
    (clearSession sampleManager
      { tokenSetFails := false, userSetFails := false
        tokenDeleteFails := true, userDeleteFails := false }).store.userSlot =
      some (sessionDataOf sampleSession) ∧
    (clearSession sampleManager
      { tokenSetFails := false, userSetFails := false
        tokenDeleteFails := true, userDeleteFails := false }).store.tokenSlot =
      some "tok_1" := by
  constructor <;> rfl

/-- Claim C5, amended: `clearSession` always leaves the manager in a
consistent `NoSession` state (both timers stopped, `currentSession`
null, `retryCount` 0) even when store deletes fail, and store errors are
not propagated (the catch block swallows them and still resets the
in-memory state); but in the keytar variant the two deletions are
sequential inside one try block, so a failing token-key delete prevents
the metadata-key delete from being attempted.  In the file-store
variant, whose `deleteStorageItem` swallows its own errors, the two
deletions are attempted independently. -/
theorem C5_clearSession_resilience_amended (st : ManagerState) (f : StoreFaults)
    (fst : FileStore.ManagerState) (ff : FileStore.StoreFaults) :
    (clearSession st f).currentSession = none ∧
    (clearSession st f).retryCount = 0 ∧
    (clearSession st f).validationTimerOn = false ∧
    (clearSession st f).refreshTimerOn = false ∧
    (f.tokenDeleteFails = true → (clearSession st f).store = st.store) ∧
    (f.tokenDeleteFails = false → (clearSession st f).store.tokenSlot = none) ∧
    (f.tokenDeleteFails = false → f.userDeleteFails = false →
      (clearSession st f).store.userSlot = none) ∧
    (FileStore.clearSession fst ff).currentSession = none ∧
    (FileStore.clearSession fst ff).validationTimerOn = false ∧
    (FileStore.clearSession fst ff).refreshTimerOn = false ∧
    (ff.tokenDeleteFails = false →
      (FileStore.clearSession fst ff).store.tokenSlot = none) ∧
    (ff.userDeleteFails = false →
      (FileStore.clearSession fst ff).store.userSlot = none) := by
  by_cases h1 : f.tokenDeleteFails = true <;>
  by_cases h2 : f.userDeleteFails = true <;>
  by_cases h3 : ff.tokenDeleteFails = true <;>
  by_cases h4 : ff.userDeleteFails = true <;>
  simp_all [clearSession, FileStore.clearSession, stopAutoMaintenance,
    FileStore.stopAutoMaintenance]

/-- Witness for C5 (amended) at concrete inputs: both keytar deletes
failing still leaves `sampleManager` in the `NoSession` state, and the
file-store variant with only the token delete failing still deletes the
metadata slot. -/
theorem C5_witness :
    (clearSession sampleManager
      { tokenSetFails := false, userSetFails := false
        tokenDeleteFails := true, userDeleteFails := true }).currentSession = none ∧
    (clearSession sampleManager
      { tokenSetFails := false, userSetFails := false
        tokenDeleteFails := true, userDeleteFails := true }).retryCount = 0 ∧
    (clearSession sampleManager
      { tokenSetFails := false, userSetFails := false
        tokenDeleteFails := true, userDeleteFails := true }).validationTimerOn = false ∧
    (FileStore.clearSession sampleManagerFS
      { tokenDeleteFails := true, userDeleteFails := false }).store.userSlot = none := by
  have h := C5_clearSession_resilience_amended sampleManager
    { tokenSetFails := false, userSetFails := false
      tokenDeleteFails := true, userDeleteFails := true }
    sampleManagerFS { tokenDeleteFails := true, userDeleteFails := false }
  exact ⟨h.1, h.2.1, h.2.2.1, h.2.2.2.2.2.2.2.2.2.2.2 rfl⟩

/-! ### Claim C7 -/

/-- A session whose access token is the empty string: a concrete input on
which the round-trip claim fails as stated. -/
def emptyTokenSession : UserSession :=
  { sampleSession with token := { sampleToken with access_token := "" } }

/-- Counterexample to claim C7 as universally stated: after
`saveSession emptyTokenSession` on a fresh manager, `loadSession` on a
fresh manager over the same store returns `null`, not a session equal to
`emptyTokenSession` — `loadSession`'s `if (!accessToken)` treats the
stored empty-string token as absent. -/
theorem C7_counterexample :
    (loadSession (freshManager
      (saveSession (freshManager { tokenSlot := none, userSlot := none })
        emptyTokenSession noFaults).1.store)).2 = none ∧
    (loadSession (freshManager
      (saveSession (freshManager { tokenSlot := none, userSlot := none })
        emptyTokenSession noFaults).1.store)).2 ≠ some emptyTokenSession := by
  constructor
  · rfl
  · decide

/-- Claim C7, amended: for every session `s` with a nonempty access
token and satisfying the data-model invariant
`createdAt ≤ lastValidatedAt`, `saveSession s` followed by
`loadSession()` on a fresh manager over the same store returns a session
equal to `s` in all fields (the stored metadata always carries
`lastValidatedAt`, and the invariant rules out the JS-falsy
`lastValidatedAt = 0 ≠ createdAt` case of the `|| createdAt` default); a
session whose access token is the empty string is instead treated on
load as having no stored token, and `loadSession` returns `null`. -/
theorem C7_round_trip_amended (st : ManagerState) (s : UserSession)
    (htok : s.token.access_token ≠ "") (hinv : s.createdAt ≤ s.lastValidatedAt) :
    (loadSession (freshManager (saveSession st s noFaults).1.store)).2 = some s := by
  have hsave : (saveSession st s noFaults).1.store =
      { tokenSlot := some s.token.access_token, userSlot := some (sessionDataOf s) } := by
    simp [saveSession, noFaults, startAutoMaintenance, stopAutoMaintenance]
  rw [hsave]
  have hbeq : (s.token.access_token == "") = false := by
    simpa using htok
  have hlv : jsOrNat (some s.lastValidatedAt) s.createdAt = s.lastValidatedAt := by
    match h : s.lastValidatedAt with
    | 0 => simp [jsOrNat]; omega
    | n + 1 => simp [jsOrNat]
  simp [loadSession, freshManager, hbeq, sessionDataOf, hlv,
    startAutoMaintenance, stopAutoMaintenance]

/-- Witness for C7 (amended): `sampleSession` round-trips exactly through
save-then-load on a fresh manager. -/
theorem C7_witness :
    (loadSession (freshManager
      (saveSession (freshManager { tokenSlot := none, userSlot := none })
        sampleSession noFaults).1.store)).2 = some sampleSession :=
  C7_round_trip_amended (freshManager { tokenSlot := none, userSlot := none })
    sampleSession (by decide) (by decide)

/-! ### Claim C1 -/

/-- The state left behind by an eviction from `sampleManager`: timers
stopped, both slots deleted, no session, `retryCount` 0. -/
def evictedSample : ManagerState :=
  { currentSession := none
    retryCount := 0
    isRefreshing := false
    validationTimerOn := false
    refreshTimerOn := false
    store := { tokenSlot := none, userSlot := none } }

/-- Claim C1: retry-before-evict.  With `MAX_RETRY_ATTEMPTS = 3`, over
due periodic-validation ticks whose liveness probe fails: after one and
two consecutive failures `currentSession` stays non-null and
`retryCount` equals the number of consecutive failures; the third
consecutive failure evicts the session (both store keys deleted,
`currentSession` null) and exactly one
`onSessionExpired`/`onAutoLogout` event fires across the three ticks
(namely `onSessionExpired`, fired from `validateSession`; the
`onAutoLogout` re-check in `performPeriodicValidation` sees the reset
`retryCount` and stays silent); a successful validation after one or two
failures resets `retryCount` to 0. -/
theorem C1_retry_before_evict (st st1 st2 st3 : ManagerState) (s : UserSession)
    (now : Nat) (ev1 ev2 ev3 : List SessionEvent)
    (hs : st.currentSession = some s) (hr : st.retryCount = 0)
    (hdue : s.lastValidatedAt + TOKEN_VALIDATION_INTERVAL < now)
    (h1 : performPeriodicValidation st false now = (st1, ev1))
    (h2 : performPeriodicValidation st1 false now = (st2, ev2))
    (h3 : performPeriodicValidation st2 false now = (st3, ev3)) :
    (st1.currentSession = some s ∧ st1.retryCount = 1 ∧ ev1 = []) ∧
    (st2.currentSession = some s ∧ st2.retryCount = 2 ∧ ev2 = []) ∧
    (st3.currentSession = none ∧ st3.store.tokenSlot = none ∧
      st3.store.userSlot = none ∧ st3.retryCount = 0 ∧
      ev1 ++ ev2 ++ ev3 = [SessionEvent.onSessionExpired]) ∧
    (performPeriodicValidation st1 true now).1.retryCount = 0 ∧
    (performPeriodicValidation st2 true now).1.retryCount = 0 := by
  have hc : TOKEN_VALIDATION_INTERVAL < now - s.lastValidatedAt := by omega
  have e1 : performPeriodicValidation st false now =
      ({ st with retryCount := 1 }, []) := by
    simp [performPeriodicValidation, validateSession, hs, hc, hr, MAX_RETRY_ATTEMPTS]
  rw [e1] at h1
  cases h1
  have e2 : performPeriodicValidation ({ st with retryCount := 1 }) false now =
      ({ st with retryCount := 2 }, []) := by
    simp [performPeriodicValidation, validateSession, hs, hc, MAX_RETRY_ATTEMPTS]
  rw [e2] at h2
  cases h2
  have e3 : performPeriodicValidation ({ st with retryCount := 2 }) false now =
      ({ currentSession := none
         retryCount := 0
         isRefreshing := st.isRefreshing
         validationTimerOn := false
         refreshTimerOn := false
         store := { tokenSlot := none, userSlot := none } },
       [SessionEvent.onSessionExpired]) := by
    simp [performPeriodicValidation, validateSession, hs, hc, MAX_RETRY_ATTEMPTS,
      clearSession, stopAutoMaintenance, noFaults]
  rw [e3] at h3
  cases h3
  refine ⟨⟨by simp [hs], rfl, rfl⟩, ⟨by simp [hs], rfl, rfl⟩,
    ⟨rfl, rfl, rfl, rfl, rfl⟩, ?_, ?_⟩
  · simp [performPeriodicValidation, validateSession, hs, hc, updateSessionData,
      noFaults, MAX_RETRY_ATTEMPTS]
  · simp [performPeriodicValidation, validateSession, hs, hc, updateSessionData,
      noFaults, MAX_RETRY_ATTEMPTS]

/-- Witness for C1 at concrete inputs: three failing due ticks on
`sampleManager`. -/
theorem C1_witness :
    (({ sampleManager with retryCount := 1 } : ManagerState).currentSession =
        some sampleSession ∧
      ({ sampleManager with retryCount := 1 } : ManagerState).retryCount = 1 ∧
      ([] : List SessionEvent) = []) ∧
    (({ sampleManager with retryCount := 2 } : ManagerState).currentSession =
        some sampleSession ∧
      ({ sampleManager with retryCount := 2 } : ManagerState).retryCount = 2 ∧
      ([] : List SessionEvent) = []) ∧
    (evictedSample.currentSession = none ∧ evictedSample.store.tokenSlot = none ∧
      evictedSample.store.userSlot = none ∧ evictedSample.retryCount = 0 ∧
      ([] : List SessionEvent) ++ [] ++ [SessionEvent.onSessionExpired] =
        [SessionEvent.onSessionExpired]) ∧
    (performPeriodicValidation { sampleManager with retryCount := 1 }
      true 3600101).1.retryCount = 0 ∧
    (performPeriodicValidation { sampleManager with retryCount := 2 }
      true 3600101).1.retryCount = 0 :=
  C1_retry_before_evict sampleManager { sampleManager with retryCount := 1 }
    { sampleManager with retryCount := 2 } evictedSample sampleSession 3600101
    [] [] [SessionEvent.onSessionExpired] rfl rfl (by decide)
    (by decide) (by decide) (by decide)

/-! ### Claim C6 -/

/-- Counterexample to claim C6: the two variants do NOT implement one
consistent refresh-failure policy.  For the same single failing profile
fetch on equivalent states, the keytar variant keeps the session
(retry-before-evict: `retryCount` becomes 1, `onSessionError` fires)
while the file-store variant evicts immediately (`currentSession` null,
`onSessionExpired` fires) — so neither "both retry" nor "both evict
immediately" holds. -/
theorem C6_counterexample :
    (performAutoRefresh sampleManager (.error ()) 200).1.currentSession =
      some sampleSession ∧
    (performAutoRefresh sampleManager (.error ()) 200).1.retryCount = 1 ∧
    (performAutoRefresh sampleManager (.error ()) 200).2 =
      [SessionEvent.onSessionError] ∧
    (FileStore.refreshUserInfo sampleManagerFS (.error ()) 200).1.currentSession =
      none ∧
    (FileStore.refreshUserInfo sampleManagerFS (.error ()) 200).2.2 =
      [SessionEvent.onSessionExpired] := by
  refine ⟨rfl, rfl, rfl, rfl, rfl⟩

/-- Claim C6, amended: the two variants implement different
refresh-failure policies.  The keytar variant applies the
retry-before-evict policy to background refresh failures (via
`handleSessionError`): the first two consecutive failures keep
`currentSession` and increment `retryCount`, and the third evicts with a
single `onAutoLogout`.  The file-store variant evicts immediately on any
refresh failure, firing `onSessionExpired`. -/
theorem C6_refresh_policy_amended (st st1 st2 st3 : ManagerState)
    (s : UserSession) (now : Nat) (ev1 ev2 ev3 : List SessionEvent)
    (fst : FileStore.ManagerState) (s2 : FileStore.UserSession)
    (hs : st.currentSession = some s) (hr : st.retryCount = 0)
    (href : st.isRefreshing = false)
    (h1 : performAutoRefresh st (.error ()) now = (st1, ev1))
    (h2 : performAutoRefresh st1 (.error ()) now = (st2, ev2))
    (h3 : performAutoRefresh st2 (.error ()) now = (st3, ev3))
    (hfs : fst.currentSession = some s2) :
    (st1.currentSession = some s ∧ st1.retryCount = 1 ∧
      ev1 = [SessionEvent.onSessionError]) ∧
    (st2.currentSession = some s ∧ st2.retryCount = 2 ∧
      ev2 = [SessionEvent.onSessionError]) ∧
    (st3.currentSession = none ∧ st3.store.tokenSlot = none ∧
      st3.store.userSlot = none ∧ ev3 = [SessionEvent.onAutoLogout]) ∧
    ((FileStore.refreshUserInfo fst (.error ()) now).1.currentSession = none ∧
      (FileStore.refreshUserInfo fst (.error ()) now).2.1 = none ∧
      (FileStore.refreshUserInfo fst (.error ()) now).2.2 =
        [SessionEvent.onSessionExpired]) := by
  have e1 : performAutoRefresh st (.error ()) now =
      ({ st with retryCount := 1 }, [SessionEvent.onSessionError]) := by
    simp [performAutoRefresh, refreshUserInfo, handleSessionError, hs, hr, href,
      MAX_RETRY_ATTEMPTS]
  rw [e1] at h1
  cases h1
  have e2 : performAutoRefresh ({ st with retryCount := 1 }) (.error ()) now =
      ({ st with retryCount := 2 }, [SessionEvent.onSessionError]) := by
    simp [performAutoRefresh, refreshUserInfo, handleSessionError, hs, href,
      MAX_RETRY_ATTEMPTS]
  rw [e2] at h2
  cases h2
  have e3 : performAutoRefresh ({ st with retryCount := 2 }) (.error ()) now =
      ({ currentSession := none
         retryCount := 0
         isRefreshing := false
         validationTimerOn := false
         refreshTimerOn := false
         store := { tokenSlot := none, userSlot := none } },
       [SessionEvent.onAutoLogout]) := by
    simp [performAutoRefresh, refreshUserInfo, handleSessionError, hs, href,
      MAX_RETRY_ATTEMPTS, clearSession, stopAutoMaintenance, noFaults]
  rw [e3] at h3
  cases h3
  refine ⟨⟨by simp [hs], rfl, rfl⟩, ⟨by simp [hs], rfl, rfl⟩,
    ⟨rfl, rfl, rfl, rfl⟩, ?_⟩
  simp [FileStore.refreshUserInfo, hfs, FileStore.clearSession,
    FileStore.stopAutoMaintenance, FileStore.noFaults]

/-- Witness for C6 (amended) at concrete inputs: three failing
auto-refresh ticks on `sampleManager`, and one failing refresh on the
file-store `sampleManagerFS`. -/
theorem C6_witness :
    (({ sampleManager with retryCount := 1 } : ManagerState).currentSession =
        some sampleSession ∧
      ({ sampleManager with retryCount := 1 } : ManagerState).retryCount = 1 ∧
      [SessionEvent.onSessionError] = [SessionEvent.onSessionError]) ∧
    (({ sampleManager with retryCount := 2 } : ManagerState).currentSession =
        some sampleSession ∧
      ({ sampleManager with retryCount := 2 } : ManagerState).retryCount = 2 ∧
      [SessionEvent.onSessionError] = [SessionEvent.onSessionError]) ∧
    (evictedSample.currentSession = none ∧ evictedSample.store.tokenSlot = none ∧
      evictedSample.store.userSlot = none ∧
      [SessionEvent.onAutoLogout] = [SessionEvent.onAutoLogout]) ∧
    ((FileStore.refreshUserInfo sampleManagerFS (.error ()) 200).1.currentSession =
        none ∧
      (FileStore.refreshUserInfo sampleManagerFS (.error ()) 200).2.1 = none ∧
      (FileStore.refreshUserInfo sampleManagerFS (.error ()) 200).2.2 =
        [SessionEvent.onSessionExpired]) :=
  C6_refresh_policy_amended sampleManager { sampleManager with retryCount := 1 }
    { sampleManager with retryCount := 2 } evictedSample sampleSession 200
    [SessionEvent.onSessionError] [SessionEvent.onSessionError]
    [SessionEvent.onAutoLogout] sampleManagerFS sampleSessionFS
    rfl rfl rfl (by decide) (by decide) (by decide) rfl

/-! ### Claim C4 -/

/-- Task remainders a `performAutoRefresh` invocation can reach. -/
def autoRemOK (t : List RefreshSegment) : Prop :=
  t = autoRefreshTask ∨ t = [RefreshSegment.autoExit] ∨ t = []

/-- 1 when the auto task is inside its network call. -/
def atNet (t : List RefreshSegment) : Nat :=
  if t = [RefreshSegment.autoExit] then 1 else 0

/-- Inductive invariant for two concurrent `performAutoRefresh` tasks:
`isRefreshing` tracks whether one of them is inside its network call,
and at most one ever is. -/
def autoInv (cs : ConcState) (t1 t2 : List RefreshSegment) : Prop :=
  autoRemOK t1 ∧ autoRemOK t2 ∧
  cs.inFlight = atNet t1 + atNet t2 ∧
  atNet t1 + atNet t2 ≤ 1 ∧
  cs.isRefreshing = decide (1 ≤ atNet t1 + atNet t2) ∧
  cs.maxInFlight ≤ 1

/-- One segment step of an auto task preserves the invariant. -/
theorem autoInv_step (cs : ConcState) (seg : RefreshSegment)
    (rest other : List RefreshSegment)
    (hcur : autoRemOK (seg :: rest)) (h : autoInv cs (seg :: rest) other) :
    autoInv (execSegment cs seg rest).1 (execSegment cs seg rest).2 other := by
  obtain ⟨-, hoth, hin, hle, hflag, hmax⟩ := h
  have haEnter : atNet [RefreshSegment.autoEnter, RefreshSegment.autoExit] = 0 := rfl
  have haExit : atNet [RefreshSegment.autoExit] = 1 := rfl
  have haNil : atNet [] = 0 := rfl
  rcases hcur with hc | hc | hc
  · -- seg :: rest = [autoEnter, autoExit]
    rw [show autoRefreshTask = [RefreshSegment.autoEnter, RefreshSegment.autoExit]
      from rfl] at hc
    obtain ⟨rfl, rfl⟩ : seg = RefreshSegment.autoEnter ∧
        rest = [RefreshSegment.autoExit] := by
      exact ⟨by injection hc, by injection hc⟩
    rw [haEnter] at hin hle hflag
    by_cases hR : cs.isRefreshing = true
    · have hstep : execSegment cs RefreshSegment.autoEnter
          [RefreshSegment.autoExit] = (cs, []) := by
        simp [execSegment, hR]
      rw [hstep]
      exact ⟨Or.inr (Or.inr rfl), hoth, by rw [haNil]; exact hin,
        by rw [haNil]; omega, by rw [haNil]; exact hflag, hmax⟩
    · simp only [Bool.not_eq_true] at hR
      have hz : atNet other = 0 := by
        rw [hR] at hflag
        by_contra hno
        have h1 : 1 ≤ 0 + atNet other := by omega
        simp [h1] at hflag
        omega
      have hin0 : cs.inFlight = 0 := by omega
      have hstep : execSegment cs RefreshSegment.autoEnter
          [RefreshSegment.autoExit] =
          ({ isRefreshing := true, inFlight := cs.inFlight + 1
             maxInFlight := max cs.maxInFlight (cs.inFlight + 1) },
           [RefreshSegment.autoExit]) := by
        simp [execSegment, hR]
      rw [hstep]
      refine ⟨Or.inr (Or.inl rfl), hoth, ?_, ?_, ?_, ?_⟩
      · rw [haExit, hz, hin0]
      · rw [haExit, hz]
      · rw [haExit, hz]
        exact rfl
      · rw [hin0]
        exact max_le hmax (le_refl 1)
  · -- seg :: rest = [autoExit]
    obtain ⟨rfl, rfl⟩ : seg = RefreshSegment.autoExit ∧ rest = [] := by
      exact ⟨by injection hc, by injection hc⟩
    rw [haExit] at hin hle hflag
    have hz : atNet other = 0 := by omega
    have hstep : execSegment cs RefreshSegment.autoExit [] =
        ({ cs with inFlight := cs.inFlight - 1, isRefreshing := false }, []) := by
      simp [execSegment]
    rw [hstep]
    refine ⟨Or.inr (Or.inr rfl), hoth, ?_, ?_, ?_, hmax⟩
    · rw [haNil, hz]
      show cs.inFlight - 1 = 0 + 0
      omega
    · rw [haNil, hz]
      omega
    · rw [haNil, hz]
      exact rfl
  · exact absurd hc (by simp)

/-- The invariant is symmetric in the two tasks. -/
theorem autoInv_swap (cs : ConcState) (t1 t2 : List RefreshSegment)
    (h : autoInv cs t1 t2) : autoInv cs t2 t1 := by
  obtain ⟨h1, h2, h3, h4, h5, h6⟩ := h
  exact ⟨h2, h1, by omega, by omega, by rw [h5, Nat.add_comm], h6⟩

/-- Any interleaving of two auto tasks keeps `maxInFlight ≤ 1`. -/
theorem autoInv_runSched (sched : List Bool) :
    ∀ (cs : ConcState) (t1 t2 : List RefreshSegment), autoInv cs t1 t2 →
      (runSched cs t1 t2 sched).maxInFlight ≤ 1 := by
  induction sched with
  | nil =>
    intro cs t1 t2 h
    exact h.2.2.2.2.2
  | cons b bs ih =>
    intro cs t1 t2 h
    cases b
    · cases t2 with
      | nil => exact ih cs t1 [] h
      | cons seg rest =>
        have h' := autoInv_step cs seg rest t1 (autoInv_swap cs t1 _ h).1
          (autoInv_swap cs t1 _ h)
        exact ih _ _ _ (autoInv_swap _ _ _ h')
    · cases t1 with
      | nil => exact ih cs [] t2 h
      | cons seg rest =>
        have h' := autoInv_step cs seg rest t2 h.1 h
        exact ih _ _ _ h'

/-- Counterexample to claim C4: `manualRefresh` performs its network
call without setting `isRefreshing` (only `performAutoRefresh` sets
it), so a timer-driven refresh interleaved at `manualRefresh`'s `await`
passes the `isRefreshing` guard and a second refresh network call goes
in flight concurrently — here the manual invocation dispatches its
fetch (one call in flight, flag still false), then an auto tick
dispatches another (two in flight). -/
theorem C4_counterexample :
    (runSched { isRefreshing := false, inFlight := 0, maxInFlight := 0 }
      manualRefreshTask autoRefreshTask [true]).isRefreshing = false ∧
    (runSched { isRefreshing := false, inFlight := 0, maxInFlight := 0 }
      manualRefreshTask autoRefreshTask [true]).inFlight = 1 ∧
    (runSched { isRefreshing := false, inFlight := 0, maxInFlight := 0 }
      manualRefreshTask autoRefreshTask [true, false]).maxInFlight = 2 := by
  refine ⟨rfl, rfl, rfl⟩

/-- Claim C4, amended: `isRefreshing` serializes timer-driven refreshes —
`performAutoRefresh` sets it before its network call, clears it in the
`finally` block on success and failure alike, and any interleaving of
two timer-driven refreshes keeps at most one network call in flight —
and any refresh invocation arriving while `isRefreshing` is true is a
no-op (`manualRefresh` returns the current stale session,
`performAutoRefresh` does nothing); but `manualRefresh` itself never
sets `isRefreshing`, so a manual refresh does not block a concurrent
timer-driven refresh (see the counterexample). -/
theorem C4_refresh_serialization_amended (st : ManagerState)
    (p : Except Unit UserProfile) (now : Nat) (sched : List Bool) :
    (runSched { isRefreshing := false, inFlight := 0, maxInFlight := 0 }
      autoRefreshTask autoRefreshTask sched).maxInFlight ≤ 1 ∧
    (st.isRefreshing = true → manualRefresh st p now = .ok (st, st.currentSession)) ∧
    (st.isRefreshing = true → performAutoRefresh st p now = (st, [])) ∧
    (performAutoRefresh st p now).1.isRefreshing = st.isRefreshing := by
  refine ⟨?_, ?_, ?_, ?_⟩
  · exact autoInv_runSched sched _ _ _ (by simp [autoInv, autoRemOK, atNet, autoRefreshTask])
  · intro h
    simp [manualRefresh, h]
  · intro h
    simp [performAutoRefresh, h]
  · by_cases hg : st.currentSession = none ∨ st.isRefreshing = true
    · rcases hg with hg | hg <;> simp [performAutoRefresh, hg]
    · push_neg at hg
      obtain ⟨hs, hR⟩ := hg
      simp only [Bool.not_eq_true] at hR
      cases hcur : st.currentSession with
      | none => exact absurd hcur hs
      | some s =>
        cases p with
        | ok prof =>
          simp [performAutoRefresh, refreshUserInfo, hcur, hR, saveSession,
            noFaults, startAutoMaintenance, stopAutoMaintenance]
        | error e =>
          simp [performAutoRefresh, refreshUserInfo, hcur, hR,
            handleSessionError, MAX_RETRY_ATTEMPTS, clearSession,
            stopAutoMaintenance, noFaults]

/-- A manager with a refresh in progress. -/
def refreshingManager : ManagerState := { sampleManager with isRefreshing := true }

/-- Witness for C4 (amended) at concrete inputs. -/
theorem C4_witness :
    (runSched { isRefreshing := false, inFlight := 0, maxInFlight := 0 }
      autoRefreshTask autoRefreshTask [true, false, true, false]).maxInFlight ≤ 1 ∧
    manualRefresh refreshingManager (.error ()) 0 =
      .ok (refreshingManager, refreshingManager.currentSession) ∧
    performAutoRefresh refreshingManager (.error ()) 0 = (refreshingManager, []) ∧
    (performAutoRefresh refreshingManager (.error ()) 0).1.isRefreshing =
      refreshingManager.isRefreshing := by
  have h := C4_refresh_serialization_amended refreshingManager (.error ()) 0
    [true, false, true, false]
  exact ⟨h.1, h.2.1 rfl, h.2.2.1 rfl, h.2.2.2⟩

/-! ### Claim C3 -/

/-- Claim C3 (listener cleanup on every exit path) — evaluation of the
code at each exit path.  The four `handleCallback` branches and the
timeout path do close the listener before settling the attempt's
promise.  But `cancelAuth` settles first and closes only afterwards,
and the supersession path of `login()` (lines 327-330) rejects the
pending attempt's promise without ever closing its listener: nothing
there calls `stopCallbackServer`, and the new attempt's
`startCallbackServer` (line 65) overwrites `this.server` without
closing the old one — so for the superseded attempt no `closeListener`
occurs at all, let alone before its promise settles. -/
theorem C3_superseded_attempt_leaks_listener :
    closedBeforeSettled (handleCallback (some "abc123") (some "s1")
      none none "s1").2 = true ∧
    closedBeforeSettled (handleCallback (some "abc123") (some "other")
      none none "s1").2 = true ∧
    closedBeforeSettled (handleCallback none (some "s1")
      none none "s1").2 = true ∧
    closedBeforeSettled (handleCallback none none
      (some "access_denied") none "s1").2 = true ∧
    closedBeforeSettled timeoutTrace = true ∧
    closedBeforeSettled cancelAuthTrace = false ∧
    loginSupersededTrace = [ListenerAction.settleReject] ∧
    ListenerAction.closeListener ∉ loginSupersededTrace ∧
    closedBeforeSettled loginSupersededTrace = false := by
  decide
